import Mathlib

/-
Verification of the wiremock stub-rule builder (stub_rule.go).

The Go code is a fluent builder producing a JSON document.  We embed it
shallowly:

* Go `map[string]V` values are modelled as key-unique association lists
  `List (String × V)`; `insertKV` is Go map assignment `m[k] = v`
  (overwrite in place, append when absent).  Go map iteration is
  unordered and Go's JSON encoder sorts map keys in the byte output;
  the association list keeps first-insertion order, which permutes but
  does not change the JSON object denoted.
* Go `interface\x7b\x7d` values handed to `json.Marshal` are modelled by the
  tree type `GoVal`; the `unsupported` constructor stands for the values
  (funcs, channels, complex numbers) that `json.Marshal` rejects with an
  error, which the builder never stores.
* `ParamMatcherInterface` is a pair of pure accessors `Strategy`/`Value`;
  its only implementation in the package is `ParamMatcher`, so matcher
  interface values are modelled by the `ParamMatcher` structure.
* Pointer receivers that mutate the rule become functional updates
  returning the new rule (the Go methods return the same pointer, so the
  returned rule is the updated state).
* `int64` fields (status, priority) carry only stored literals, no
  arithmetic, so they are modelled by `Int`.
* The `omitempty` JSON tags are modelled at serialization time:
  a field is dropped when its Go value is the zero value of its type
  (empty string, nil/empty map, integer 0, nil pointer).
-/

/- A JSON-marshalable Go value tree.  `obj` keeps the fields as a
key-unique sequence; `unsupported` stands for a Go value that
`json.Marshal` rejects (func, chan, complex). -/
mutual

inductive GoVal : Type where
  | str : String → GoVal
  | int : Int → GoVal
  | obj : GoFields → GoVal
  | arr : GoElems → GoVal
  | unsupported : GoVal

inductive GoFields : Type where
  | nil : GoFields
  | cons : String → GoVal → GoFields → GoFields

inductive GoElems : Type where
  | nil : GoElems
  | cons : GoVal → GoElems → GoElems

end

/-- Lookup of the value stored under a key in an association list
(the denotation of Go map indexing). -/
def lookupKV {α : Type} : List (String × α) → String → Option α
  | [], _ => none
  | (k, v) :: rest, key => if k = key then some v else lookupKV rest key

/-- Go map assignment `m[k] = v`: overwrite the existing entry for `k`
in place, or append a new entry. -/
def insertKV {α : Type} : List (String × α) → String → α → List (String × α)
  | [], key, v => [(key, v)]
  | (k, w) :: rest, key, v =>
      if k = key then (key, v) :: rest else (k, w) :: insertKV rest key v

/-- Package an association list of marshaled values as JSON object fields. -/
def fieldsOf : List (String × GoVal) → GoFields
  | [] => GoFields.nil
  | (k, v) :: rest => GoFields.cons k v (fieldsOf rest)

/-- Package a list of marshaled values as JSON array elements. -/
def elemsOf : List GoVal → GoElems
  | [] => GoElems.nil
  | v :: rest => GoElems.cons v (elemsOf rest)

/-- Value stored under a key in a marshaled JSON object. -/
def GoFields.find : GoFields → String → Option GoVal
  | GoFields.nil, _ => none
  | GoFields.cons k v rest, key => if k = key then some v else rest.find key

mutual

/-- Whether `json.Marshal` accepts this value (no unsupported type inside). -/
def GoVal.encodable : GoVal → Bool
  | GoVal.str _ => true
  | GoVal.int _ => true
  | GoVal.obj fs => fs.encodableF
  | GoVal.arr es => es.encodableE
  | GoVal.unsupported => false

/-- Whether every field value of a JSON object is marshalable. -/
def GoFields.encodableF : GoFields → Bool
  | GoFields.nil => true
  | GoFields.cons _ v rest => v.encodable && rest.encodableF

/-- Whether every element of a JSON array is marshalable. -/
def GoElems.encodableE : GoElems → Bool
  | GoElems.nil => true
  | GoElems.cons v rest => v.encodable && rest.encodableE

end

/-- URLMatchingStrategy is enum url matching type (a Go string type). -/
abbrev URLMatchingStrategy := String

/-- ParamMatchingStrategy is enum params matching type (a Go string type). -/
abbrev ParamMatchingStrategy := String

def ParamEqualTo : ParamMatchingStrategy := "equalTo"
def ParamMatches : ParamMatchingStrategy := "matches"
def ParamContains : ParamMatchingStrategy := "contains"
def ParamEqualToXml : ParamMatchingStrategy := "equalToXml"
def ParamEqualToJson : ParamMatchingStrategy := "equalToJson"
def ParamMatchesXPath : ParamMatchingStrategy := "matchesXPath"
def ParamMatchesJsonPath : ParamMatchingStrategy := "matchesJsonPath"
def ParamAbsent : ParamMatchingStrategy := "absent"
def ParamDoesNotMatch : ParamMatchingStrategy := "doesNotMatch"

def URLEqualToRule : URLMatchingStrategy := "url"
def URLPathEqualToRule : URLMatchingStrategy := "urlPath"
def URLPathMatchingRule : URLMatchingStrategy := "urlPathPattern"
def URLMatchingRule : URLMatchingStrategy := "urlPattern"

/-- URLMatcher is structure for defining the type of url matching. -/
structure URLMatcher : Type where
  strategy : URLMatchingStrategy
  value : String
deriving DecidableEq

/-- Strategy returns URLMatchingStrategy of URLMatcher. -/
def URLMatcher.Strategy (m : URLMatcher) : URLMatchingStrategy := m.strategy

/-- Value returns value of URLMatcher. -/
def URLMatcher.Value (m : URLMatcher) : String := m.value

/-- URLEqualTo returns URLMatcher with URLEqualToRule matching strategy. -/
def URLEqualTo (url : String) : URLMatcher :=
  { strategy := URLEqualToRule, value := url }

/-- URLPathEqualTo returns URLMatcher with URLPathEqualToRule matching strategy. -/
def URLPathEqualTo (url : String) : URLMatcher :=
  { strategy := URLPathEqualToRule, value := url }

/-- URLPathMatching returns URLMatcher with URLPathMatchingRule matching strategy. -/
def URLPathMatching (url : String) : URLMatcher :=
  { strategy := URLPathMatchingRule, value := url }

/-- URLMatching returns URLMatcher with URLMatchingRule matching strategy. -/
def URLMatching (url : String) : URLMatcher :=
  { strategy := URLMatchingRule, value := url }

/-- ParamMatcher is structure for defining the type of params. -/
structure ParamMatcher : Type where
  strategy : ParamMatchingStrategy
  value : String
deriving DecidableEq

/-- Strategy returns ParamMatchingStrategy of ParamMatcher. -/
def ParamMatcher.Strategy (m : ParamMatcher) : ParamMatchingStrategy := m.strategy

/-- Value returns value of ParamMatcher. -/
def ParamMatcher.Value (m : ParamMatcher) : String := m.value

/-- EqualTo returns ParamMatcher with ParamEqualTo matching strategy. -/
def EqualTo (param : String) : ParamMatcher :=
  { strategy := ParamEqualTo, value := param }

/-- Matching returns ParamMatcher with ParamMatches matching strategy. -/
def Matching (param : String) : ParamMatcher :=
  { strategy := ParamMatches, value := param }

/-- Contains returns ParamMatcher with ParamContains matching strategy. -/
def Contains (param : String) : ParamMatcher :=
  { strategy := ParamContains, value := param }

/-- EqualToXml returns ParamMatcher with ParamEqualToXml matching strategy. -/
def EqualToXml (param : String) : ParamMatcher :=
  { strategy := ParamEqualToXml, value := param }

/-- EqualToJson returns ParamMatcher with ParamEqualToJson matching strategy. -/
def EqualToJson (param : String) : ParamMatcher :=
  { strategy := ParamEqualToJson, value := param }

/-- MatchingXPath returns ParamMatcher with ParamMatchesXPath matching strategy. -/
def MatchingXPath (param : String) : ParamMatcher :=
  { strategy := ParamMatchesXPath, value := param }

/-- MatchingJsonPath returns ParamMatcher with ParamMatchesJsonPath matching strategy. -/
def MatchingJsonPath (param : String) : ParamMatcher :=
  { strategy := ParamMatchesJsonPath, value := param }

/-- NotMatching returns ParamMatcher with ParamDoesNotMatch matching strategy. -/
def NotMatching (param : String) : ParamMatcher :=
  { strategy := ParamDoesNotMatch, value := param }

/-- The request part of a stub rule (Go struct `request`). -/
structure request : Type where
  urlMatcher : URLMatcher
  method : String
  headers : List (String × ParamMatcher)
  queryParams : List (String × ParamMatcher)
  cookies : List (String × ParamMatcher)
  bodyPatterns : List ParamMatcher

/-- The response part of a stub rule (Go struct `response`). -/
structure response : Type where
  body : String
  headers : List (String × String)
  status : Int

/-- StubRule is struct of http request body to WireMock. -/
structure StubRule : Type where
  request : request
  response : response
  priority : Option Int
  scenarioName : Option String
  requiredScenarioState : Option String
  newScenarioState : Option String

/-- NewStubRule returns a new StubRule: method and url matcher fixed,
response status defaults to http.StatusOK = 200, everything else unset. -/
def NewStubRule (method : String) (urlMatcher : URLMatcher) : StubRule :=
  { request :=
      { urlMatcher := urlMatcher
        method := method
        headers := []
        queryParams := []
        cookies := []
        bodyPatterns := [] }
    response := { body := "", headers := [], status := 200 }
    priority := none
    scenarioName := none
    requiredScenarioState := none
    newScenarioState := none }

/-- WithQueryParam adds query param and returns the rule. -/
def StubRule.WithQueryParam (s : StubRule) (param : String) (matcher : ParamMatcher) : StubRule :=
  { s with request := { s.request with queryParams := insertKV s.request.queryParams param matcher } }

/-- WithHeader adds header to Headers and returns the rule. -/
def StubRule.WithHeader (s : StubRule) (header : String) (matcher : ParamMatcher) : StubRule :=
  { s with request := { s.request with headers := insertKV s.request.headers header matcher } }

/-- WithCookie adds cookie and returns the rule. -/
def StubRule.WithCookie (s : StubRule) (cookie : String) (matcher : ParamMatcher) : StubRule :=
  { s with request := { s.request with cookies := insertKV s.request.cookies cookie matcher } }

/-- WithBodyPattern adds body pattern and returns the rule. -/
def StubRule.WithBodyPattern (s : StubRule) (matcher : ParamMatcher) : StubRule :=
  { s with request := { s.request with bodyPatterns := s.request.bodyPatterns ++ [matcher] } }

/-- WillReturn sets response and returns the rule. -/
def StubRule.WillReturn (s : StubRule) (body : String) (headers : List (String × String))
    (status : Int) : StubRule :=
  { s with response := { body := body, headers := headers, status := status } }

/-- AtPriority sets priority and returns the rule. -/
def StubRule.AtPriority (s : StubRule) (priority : Int) : StubRule :=
  { s with priority := some priority }

/-- InScenario sets scenarioName and returns the rule. -/
def StubRule.InScenario (s : StubRule) (scenarioName : String) : StubRule :=
  { s with scenarioName := some scenarioName }

/-- WhenScenarioStateIs sets requiredScenarioState and returns the rule. -/
def StubRule.WhenScenarioStateIs (s : StubRule) (scenarioState : String) : StubRule :=
  { s with requiredScenarioState := some scenarioState }

/-- WillSetStateTo sets newScenarioState and returns the rule. -/
def StubRule.WillSetStateTo (s : StubRule) (scenarioState : String) : StubRule :=
  { s with newScenarioState := some scenarioState }

/-- Post returns a StubRule for the POST method. -/
def Post (urlMatchingPair : URLMatcher) : StubRule := NewStubRule "POST" urlMatchingPair

/-- Get returns a StubRule for the GET method. -/
def Get (urlMatchingPair : URLMatcher) : StubRule := NewStubRule "GET" urlMatchingPair

/-- Delete returns a StubRule for the DELETE method. -/
def Delete (urlMatchingPair : URLMatcher) : StubRule := NewStubRule "DELETE" urlMatchingPair

/-- Put returns a StubRule for the PUT method. -/
def Put (urlMatchingPair : URLMatcher) : StubRule := NewStubRule "PUT" urlMatchingPair

/-- The single-entry object a matcher serializes to. -/
def paramEntry (m : ParamMatcher) : GoVal :=
  GoVal.obj (GoFields.cons m.strategy (GoVal.str m.value) GoFields.nil)

/-- Serialization of a name-to-matcher map: each entry becomes a
single-entry nested object. -/
def paramMapEntries (l : List (String × ParamMatcher)) : List (String × GoVal) :=
  l.map (fun kv => (kv.1, paramEntry kv.2))

/-- mapFrom builds the generic request object, exactly as the Go code:
a map literal with "method" and the url strategy tag, then conditional
assignments for bodyPatterns, headers, cookies and queryParameters. -/
def mapFrom (r : request) : List (String × GoVal) :=
  let req := insertKV [("method", GoVal.str r.method)] r.urlMatcher.Strategy
    (GoVal.str r.urlMatcher.Value)
  let req := if r.bodyPatterns.length > 0 then
    insertKV req "bodyPatterns" (GoVal.arr (elemsOf (r.bodyPatterns.map paramEntry))) else req
  let req := if r.headers.length > 0 then
    insertKV req "headers" (GoVal.obj (fieldsOf (paramMapEntries r.headers))) else req
  let req := if r.cookies.length > 0 then
    insertKV req "cookies" (GoVal.obj (fieldsOf (paramMapEntries r.cookies))) else req
  let req := if r.queryParams.length > 0 then
    insertKV req "queryParameters" (GoVal.obj (fieldsOf (paramMapEntries r.queryParams))) else req
  req

/-- The fields of the marshaled response object: all three carry
`omitempty`, so the empty body, the empty header map and status 0 are
omitted. -/
def responseFields (r : response) : List (String × GoVal) :=
  (if r.body = "" then [] else [("body", GoVal.str r.body)]) ++
  (if r.headers.length > 0 then
    [("headers", GoVal.obj (fieldsOf (r.headers.map (fun kv => (kv.1, GoVal.str kv.2)))))]
  else []) ++
  (if r.status = 0 then [] else [("status", GoVal.int r.status)])

/-- The fields of the marshaled top-level document, in the declaration
order of the anonymous jsonStubRule struct: the four `omitempty` pointer
fields are present exactly when set, then the request and response
objects, which are always present. -/
def stubRuleFields (s : StubRule) : List (String × GoVal) :=
  (match s.priority with
   | some p => [("priority", GoVal.int p)]
   | none => []) ++
  (match s.scenarioName with
   | some v => [("scenarioName", GoVal.str v)]
   | none => []) ++
  (match s.requiredScenarioState with
   | some v => [("requiredScenarioState", GoVal.str v)]
   | none => []) ++
  (match s.newScenarioState with
   | some v => [("newScenarioState", GoVal.str v)]
   | none => []) ++
  [("request", GoVal.obj (fieldsOf (mapFrom s.request))),
   ("response", GoVal.obj (fieldsOf (responseFields s.response)))]

/-- MarshalJSON makes the json body for the http request: it builds the
document and hands it to `json.Marshal`, which fails exactly when the
value holds an unsupported type. -/
def StubRule.MarshalJSON (s : StubRule) : Except String (List (String × GoVal)) :=
  let doc := stubRuleFields s
  if (fieldsOf doc).encodableF then Except.ok doc
  else Except.error "json: unsupported type"

/-- MarshalJSON in state-passing form: the method reads the receiver into
a local struct and marshals that; it contains no store to the receiver,
so the outgoing rule state is the incoming one. -/
def StubRule.MarshalJSONRun (s : StubRule) :
    Except String (List (String × GoVal)) × StubRule :=
  (s.MarshalJSON, s)

/-- The four strategy tags a URLMatcher built by the public constructors
can carry. -/
def isURLStrategy (t : String) : Prop :=
  t = "url" ∨ t = "urlPath" ∨ t = "urlPathPattern" ∨ t = "urlPattern"

instance (t : String) : Decidable (isURLStrategy t) := by
  unfold isURLStrategy
  infer_instance

deriving instance DecidableEq for GoVal

/-- Every value of an association list is marshalable. -/
def allEnc : List (String × GoVal) → Bool
  | [] => true
  | (_, v) :: rest => v.encodable && allEnc rest

/-- A sequence of WithBodyPattern calls, one per matcher, in order. -/
def applyBodyPatterns (s : StubRule) (ms : List ParamMatcher) : StubRule :=
  ms.foldl StubRule.WithBodyPattern s


/-- Looking a key up after a Go map assignment: the assigned key now maps
to the assigned value, every other key is untouched. -/
theorem lookupKV_insertKV {α : Type} (l : List (String × α)) (key k : String) (v : α) :
    lookupKV (insertKV l k v) key = if k = key then some v else lookupKV l key := by
  induction l with
  | nil => simp [insertKV, lookupKV]
  | cons hd tl ih =>
    obtain ⟨a, b⟩ := hd
    by_cases hak : a = k
    · subst hak
      by_cases hk : a = key
      · subst hk
        simp [insertKV, lookupKV]
      · simp [insertKV, lookupKV, hk]
    · by_cases hk : a = key
      · subst hk
        simp [insertKV, lookupKV, hak, Ne.symm hak]
      · simp [insertKV, lookupKV, hak, hk, ih]

/-- Assigning the same key twice keeps only the second value. -/
theorem insertKV_insertKV {α : Type} (l : List (String × α)) (k : String) (v w : α) :
    insertKV (insertKV l k v) k w = insertKV l k w := by
  induction l with
  | nil => simp [insertKV]
  | cons hd tl ih =>
    obtain ⟨a, b⟩ := hd
    by_cases hak : a = k
    · subst hak
      simp [insertKV]
    · simp [insertKV, hak, ih]

/-- A Go map is non-empty after an assignment. -/
theorem insertKV_length_pos {α : Type} (l : List (String × α)) (k : String) (v : α) :
    0 < (insertKV l k v).length := by
  cases l with
  | nil => simp [insertKV]
  | cons hd tl =>
    obtain ⟨a, b⟩ := hd
    by_cases hak : a = k <;> simp [insertKV, hak]

/-- Serializing a matcher map commutes with lookup. -/
theorem lookupKV_paramMapEntries (l : List (String × ParamMatcher)) (key : String) :
    lookupKV (paramMapEntries l) key = (lookupKV l key).map paramEntry := by
  induction l with
  | nil => simp [paramMapEntries, lookupKV]
  | cons hd tl ih =>
    obtain ⟨a, b⟩ := hd
    simp only [paramMapEntries] at ih
    by_cases hk : a = key <;> simp [paramMapEntries, lookupKV, hk, ih]

/-- Field lookup in a packaged object agrees with association-list lookup. -/
theorem find_fieldsOf (l : List (String × GoVal)) (key : String) :
    (fieldsOf l).find key = lookupKV l key := by
  induction l with
  | nil => simp [fieldsOf, GoFields.find, lookupKV]
  | cons hd tl ih =>
    obtain ⟨a, b⟩ := hd
    by_cases hk : a = key <;> simp [fieldsOf, GoFields.find, lookupKV, hk, ih]

/-- When the rule has body patterns, the request object maps
"bodyPatterns" to the ordered array of single-entry objects. -/
theorem mapFrom_bodyPatterns (r : request) (h : 0 < r.bodyPatterns.length) :
    lookupKV (mapFrom r) "bodyPatterns"
      = some (GoVal.arr (elemsOf (r.bodyPatterns.map paramEntry))) := by
  simp only [mapFrom]
  by_cases hh : r.headers.length > 0 <;>
  by_cases hc : r.cookies.length > 0 <;>
  by_cases hq : r.queryParams.length > 0 <;>
  simp [h, hh, hc, hq, lookupKV_insertKV]

/-- When the rule has headers, the request object maps "headers" to the
serialized header map. -/
theorem mapFrom_headers (r : request) (h : 0 < r.headers.length) :
    lookupKV (mapFrom r) "headers"
      = some (GoVal.obj (fieldsOf (paramMapEntries r.headers))) := by
  simp only [mapFrom]
  by_cases hb : r.bodyPatterns.length > 0 <;>
  by_cases hc : r.cookies.length > 0 <;>
  by_cases hq : r.queryParams.length > 0 <;>
  simp [h, hb, hc, hq, lookupKV_insertKV]

/-- When the rule has cookies, the request object maps "cookies" to the
serialized cookie map. -/
theorem mapFrom_cookies (r : request) (h : 0 < r.cookies.length) :
    lookupKV (mapFrom r) "cookies"
      = some (GoVal.obj (fieldsOf (paramMapEntries r.cookies))) := by
  simp only [mapFrom]
  by_cases hb : r.bodyPatterns.length > 0 <;>
  by_cases hh : r.headers.length > 0 <;>
  by_cases hq : r.queryParams.length > 0 <;>
  simp [h, hb, hh, hq, lookupKV_insertKV]

/-- When the rule has query parameters, the request object maps
"queryParameters" to the serialized query-parameter map. -/
theorem mapFrom_queryParams (r : request) (h : 0 < r.queryParams.length) :
    lookupKV (mapFrom r) "queryParameters"
      = some (GoVal.obj (fieldsOf (paramMapEntries r.queryParams))) := by
  simp only [mapFrom]
  by_cases hb : r.bodyPatterns.length > 0 <;>
  by_cases hh : r.headers.length > 0 <;>
  by_cases hc : r.cookies.length > 0 <;>
  simp [h, hb, hh, hc, lookupKV_insertKV]

/-- As long as the url strategy tag is one of the four public tags, the
request object maps "method" to the rule's HTTP method. -/
theorem mapFrom_method (r : request) (h : isURLStrategy r.urlMatcher.Strategy) :
    lookupKV (mapFrom r) "method" = some (GoVal.str r.method) := by
  simp only [mapFrom]
  by_cases hb : r.bodyPatterns.length > 0 <;>
  by_cases hh : r.headers.length > 0 <;>
  by_cases hc : r.cookies.length > 0 <;>
  by_cases hq : r.queryParams.length > 0 <;>
  rcases h with h | h | h | h <;>
  simp [h, hb, hh, hc, hq, lookupKV_insertKV, insertKV, lookupKV]

/-- As long as the url strategy tag is one of the four public tags, the
request object maps the strategy tag itself to the matched value. -/
theorem mapFrom_urlKey (r : request) (h : isURLStrategy r.urlMatcher.Strategy) :
    lookupKV (mapFrom r) r.urlMatcher.Strategy = some (GoVal.str r.urlMatcher.Value) := by
  simp only [mapFrom]
  by_cases hb : r.bodyPatterns.length > 0 <;>
  by_cases hh : r.headers.length > 0 <;>
  by_cases hc : r.cookies.length > 0 <;>
  by_cases hq : r.queryParams.length > 0 <;>
  rcases h with h | h | h | h <;>
  simp [h, hb, hh, hc, hq, lookupKV_insertKV, insertKV, lookupKV]


/-- Marshalability across list append. -/
theorem allEnc_append (l1 l2 : List (String × GoVal)) :
    allEnc (l1 ++ l2) = (allEnc l1 && allEnc l2) := by
  induction l1 with
  | nil => simp [allEnc]
  | cons hd tl ih =>
    obtain ⟨a, b⟩ := hd
    simp [allEnc, ih, Bool.and_assoc]

/-- Packaging fields preserves marshalability. -/
theorem encodableF_fieldsOf (l : List (String × GoVal)) :
    (fieldsOf l).encodableF = allEnc l := by
  induction l with
  | nil => rfl
  | cons hd tl ih =>
    obtain ⟨a, b⟩ := hd
    simp [fieldsOf, GoFields.encodableF, allEnc, ih]

/-- Map assignment of a marshalable value preserves marshalability. -/
theorem allEnc_insertKV (l : List (String × GoVal)) (k : String) (v : GoVal)
    (hl : allEnc l = true) (hv : v.encodable = true) :
    allEnc (insertKV l k v) = true := by
  induction l with
  | nil => simp [insertKV, allEnc, hv]
  | cons hd tl ih =>
    obtain ⟨a, b⟩ := hd
    simp only [allEnc, Bool.and_eq_true] at hl
    by_cases hak : a = k
    · simp [insertKV, hak, allEnc, hv, hl.2]
    · simp [insertKV, hak, allEnc, hl.1, ih hl.2]

/-- Every serialized matcher-map entry is marshalable. -/
theorem allEnc_paramMapEntries (l : List (String × ParamMatcher)) :
    allEnc (paramMapEntries l) = true := by
  induction l with
  | nil => rfl
  | cons hd tl ih =>
    simp only [paramMapEntries, List.map] at ih ⊢
    simp only [allEnc, Bool.and_eq_true]
    exact ⟨rfl, ih⟩

/-- Every serialized body-pattern element is marshalable. -/
theorem encodableE_bodyPatterns (l : List ParamMatcher) :
    (elemsOf (l.map paramEntry)).encodableE = true := by
  induction l with
  | nil => rfl
  | cons hd tl ih =>
    simp only [List.map, elemsOf, GoElems.encodableE, Bool.and_eq_true]
    exact ⟨rfl, ih⟩

/-- Every serialized literal string map entry is marshalable. -/
theorem encodableF_strMap (l : List (String × String)) :
    (fieldsOf (l.map (fun kv => (kv.1, GoVal.str kv.2)))).encodableF = true := by
  induction l with
  | nil => rfl
  | cons hd tl ih =>
    simp only [List.map, fieldsOf, GoFields.encodableF, Bool.and_eq_true]
    exact ⟨rfl, ih⟩

/-- Every value the request object stores is marshalable. -/
theorem allEnc_mapFrom (r : request) : allEnc (mapFrom r) = true := by
  simp only [mapFrom]
  have base : allEnc (insertKV [("method", GoVal.str r.method)] r.urlMatcher.Strategy
      (GoVal.str r.urlMatcher.Value)) = true :=
    allEnc_insertKV _ _ _ (by rfl) (by rfl)
  by_cases hb : r.bodyPatterns.length > 0 <;>
  by_cases hh : r.headers.length > 0 <;>
  by_cases hc : r.cookies.length > 0 <;>
  by_cases hq : r.queryParams.length > 0 <;>
  simp only [hb, hh, hc, hq, if_true, if_false, if_pos, if_neg, not_false_iff] <;>
  repeat
    first
    | exact base
    | apply allEnc_insertKV _ _ _ _ (by
        simp [GoVal.encodable, encodableF_fieldsOf, allEnc_paramMapEntries,
          encodableE_bodyPatterns])

/-- Every value the response object stores is marshalable. -/
theorem allEnc_responseFields (r : response) : allEnc (responseFields r) = true := by
  simp only [responseFields]
  by_cases h1 : r.body = "" <;>
  by_cases h2 : r.headers.length > 0 <;>
  by_cases h3 : r.status = 0 <;>
  simp [h1, h2, h3, allEnc, allEnc_append, GoVal.encodable, encodableF_strMap]

/-- Every value the top-level document stores is marshalable. -/
theorem allEnc_stubRuleFields (s : StubRule) : allEnc (stubRuleFields s) = true := by
  have hreq := allEnc_mapFrom s.request
  have hresp := allEnc_responseFields s.response
  simp only [stubRuleFields]
  cases s.priority <;> cases s.scenarioName <;> cases s.requiredScenarioState <;>
  cases s.newScenarioState <;>
  simp [allEnc, allEnc_append, GoVal.encodable, encodableF_fieldsOf, hreq, hresp]

/-- Claim C1, counterexample: the claim says the serialized response
object always contains the status field, even when the caller sets the
status to 0 via WillReturn.  The status field carries `omitempty`, so
for the rule `NewStubRule POST (URLEqualTo /things)` followed by
`WillReturn "" \x7b\x7d 0` the response object has no status field at all. -/
theorem c1_status_zero_omitted :
    GoFields.find
      (fieldsOf (responseFields
        (((NewStubRule "POST" (URLEqualTo "/things")).WillReturn "" [] 0)).response))
      "status" = none := by
  decide

/-- Claim C1, amended: the serialized response object contains the
status field exactly when the stored status is non-zero (this covers
the default 200 and every non-zero status set by WillReturn); a status
of 0 set by WillReturn is dropped by its `omitempty` tag. -/
theorem c1_status_nonzero_present (s : StubRule) (h : s.response.status ≠ 0) :
    GoFields.find (fieldsOf (responseFields s.response)) "status"
      = some (GoVal.int s.response.status) := by
  rw [find_fieldsOf]
  simp only [responseFields]
  by_cases h1 : s.response.body = "" <;>
  by_cases h2 : s.response.headers.length > 0 <;>
  simp [h1, h2, h, lookupKV]

/-- Claim C1 witness: a rule whose status was set to 201 by WillReturn
serializes with status 201 present. -/
theorem c1_status_nonzero_present_witness :
    GoFields.find
      (fieldsOf (responseFields
        (((NewStubRule "GET" (URLEqualTo "/")).WillReturn "ok" [] 201)).response))
      "status" = some (GoVal.int 201) :=
  c1_status_nonzero_present _ (by decide)

/-- Claim C2: after AtPriority 0 the serialized document carries the key
priority with value 0 (the priority field is a pointer, so `omitempty`
tests the pointer for nil, not the value for zero); and when AtPriority
was never called (the pointer is nil) the key is absent. -/
theorem c2_priority_explicit (s : StubRule) :
    lookupKV (stubRuleFields (s.AtPriority 0)) "priority" = some (GoVal.int 0) ∧
    (s.priority = none → lookupKV (stubRuleFields s) "priority" = none) := by
  constructor
  · simp [stubRuleFields, StubRule.AtPriority, lookupKV]
  · intro h
    simp only [stubRuleFields, h]
    cases s.scenarioName <;> cases s.requiredScenarioState <;> cases s.newScenarioState <;>
    simp [lookupKV]

/-- Claim C2 witness: a fresh GET rule serializes without priority, and
with AtPriority 0 it serializes with priority 0. -/
theorem c2_priority_explicit_witness :
    lookupKV (stubRuleFields ((Get (URLEqualTo "/")).AtPriority 0)) "priority"
      = some (GoVal.int 0) ∧
    lookupKV (stubRuleFields (Get (URLEqualTo "/"))) "priority" = none := by
  refine ⟨(c2_priority_explicit (Get (URLEqualTo "/"))).1,
    (c2_priority_explicit (Get (URLEqualTo "/"))).2 (by decide)⟩

/-- Claim C3: a rule fresh out of NewStubRule (hence also out of
Post/Get/Put/Delete, which call it) serializes with priority,
scenarioName, requiredScenarioState, newScenarioState absent from the
top level, bodyPatterns, headers, cookies, queryParameters absent from
the request object, body absent from the response object, and status
200 present in the response object. -/
theorem c3_fresh_rule_defaults (method : String) (m : URLMatcher)
    (h : isURLStrategy m.Strategy) :
    lookupKV (stubRuleFields (NewStubRule method m)) "priority" = none ∧
    lookupKV (stubRuleFields (NewStubRule method m)) "scenarioName" = none ∧
    lookupKV (stubRuleFields (NewStubRule method m)) "requiredScenarioState" = none ∧
    lookupKV (stubRuleFields (NewStubRule method m)) "newScenarioState" = none ∧
    lookupKV (mapFrom (NewStubRule method m).request) "bodyPatterns" = none ∧
    lookupKV (mapFrom (NewStubRule method m).request) "headers" = none ∧
    lookupKV (mapFrom (NewStubRule method m).request) "cookies" = none ∧
    lookupKV (mapFrom (NewStubRule method m).request) "queryParameters" = none ∧
    GoFields.find (fieldsOf (responseFields (NewStubRule method m).response)) "body" = none ∧
    GoFields.find (fieldsOf (responseFields (NewStubRule method m).response)) "status"
      = some (GoVal.int 200) := by
  rcases h with h | h | h | h <;>
  simp only [URLMatcher.Strategy] at h <;>
  simp [stubRuleFields, NewStubRule, mapFrom, responseFields, fieldsOf, GoFields.find,
    insertKV, lookupKV, URLMatcher.Strategy, URLMatcher.Value, h]

/-- Claim C3 witness: the fresh rule NewStubRule GET (URLEqualTo /things)
has all the listed fields absent and response status 200. -/
theorem c3_fresh_rule_defaults_witness :
    lookupKV (stubRuleFields (NewStubRule "GET" (URLEqualTo "/things"))) "priority" = none ∧
    lookupKV (stubRuleFields (NewStubRule "GET" (URLEqualTo "/things"))) "scenarioName" = none ∧
    lookupKV (stubRuleFields (NewStubRule "GET" (URLEqualTo "/things")))
      "requiredScenarioState" = none ∧
    lookupKV (stubRuleFields (NewStubRule "GET" (URLEqualTo "/things")))
      "newScenarioState" = none ∧
    lookupKV (mapFrom (NewStubRule "GET" (URLEqualTo "/things")).request) "bodyPatterns" = none ∧
    lookupKV (mapFrom (NewStubRule "GET" (URLEqualTo "/things")).request) "headers" = none ∧
    lookupKV (mapFrom (NewStubRule "GET" (URLEqualTo "/things")).request) "cookies" = none ∧
    lookupKV (mapFrom (NewStubRule "GET" (URLEqualTo "/things")).request)
      "queryParameters" = none ∧
    GoFields.find
      (fieldsOf (responseFields (NewStubRule "GET" (URLEqualTo "/things")).response))
      "body" = none ∧
    GoFields.find
      (fieldsOf (responseFields (NewStubRule "GET" (URLEqualTo "/things")).response))
      "status" = some (GoVal.int 200) :=
  c3_fresh_rule_defaults "GET" (URLEqualTo "/things") (by decide)

/-- Claim C4: the rule Post (URLEqualTo /things), WithHeader X-Key
(EqualTo abc), WillReturn with body two braces, a Content-Type header and
status 201 serializes with request object method POST, url /things and
the X-Key equalTo abc header, and response object body, the header and
status 201, exactly as the spec example lists them. -/
theorem c4_post_example :
    mapFrom ((((Post (URLEqualTo "/things")).WithHeader "X-Key" (EqualTo "abc")).WillReturn
        "\x7b\x7d" [("Content-Type", "application/json")] 201)).request
      = [("method", GoVal.str "POST"), ("url", GoVal.str "/things"),
         ("headers", GoVal.obj (GoFields.cons "X-Key"
           (GoVal.obj (GoFields.cons "equalTo" (GoVal.str "abc") GoFields.nil))
           GoFields.nil))] ∧
    responseFields ((((Post (URLEqualTo "/things")).WithHeader "X-Key"
        (EqualTo "abc")).WillReturn
        "\x7b\x7d" [("Content-Type", "application/json")] 201)).response
      = [("body", GoVal.str "\x7b\x7d"),
         ("headers", GoVal.obj (GoFields.cons "Content-Type"
           (GoVal.str "application/json") GoFields.nil)),
         ("status", GoVal.int 201)] := by
  decide

/-- Claim C5: calling WithHeader twice with the same name keeps only the
second matcher in the serialized headers mapping, and the entry stored
under that name is exactly the second matcher's single-entry object; the
same last-write-wins behaviour holds for WithCookie on the cookies
mapping and WithQueryParam on the queryParameters mapping. -/
theorem c5_last_write_wins (s : StubRule) (n : String) (m1 m2 : ParamMatcher) :
    (lookupKV (mapFrom (((s.WithHeader n m1).WithHeader n m2)).request) "headers"
        = some (GoVal.obj (fieldsOf (paramMapEntries (insertKV s.request.headers n m2)))) ∧
      GoFields.find (fieldsOf (paramMapEntries (insertKV s.request.headers n m2))) n
        = some (paramEntry m2)) ∧
    (lookupKV (mapFrom (((s.WithCookie n m1).WithCookie n m2)).request) "cookies"
        = some (GoVal.obj (fieldsOf (paramMapEntries (insertKV s.request.cookies n m2)))) ∧
      GoFields.find (fieldsOf (paramMapEntries (insertKV s.request.cookies n m2))) n
        = some (paramEntry m2)) ∧
    (lookupKV (mapFrom (((s.WithQueryParam n m1).WithQueryParam n m2)).request)
        "queryParameters"
        = some (GoVal.obj (fieldsOf (paramMapEntries (insertKV s.request.queryParams n m2)))) ∧
      GoFields.find (fieldsOf (paramMapEntries (insertKV s.request.queryParams n m2))) n
        = some (paramEntry m2)) := by
  have hfind : ∀ l : List (String × ParamMatcher),
      GoFields.find (fieldsOf (paramMapEntries (insertKV l n m2))) n
        = some (paramEntry m2) := by
    intro l
    rw [find_fieldsOf, lookupKV_paramMapEntries, lookupKV_insertKV]
    simp
  have hh : (((s.WithHeader n m1).WithHeader n m2)).request.headers
      = insertKV s.request.headers n m2 := by
    simp [StubRule.WithHeader, insertKV_insertKV]
  have hc : (((s.WithCookie n m1).WithCookie n m2)).request.cookies
      = insertKV s.request.cookies n m2 := by
    simp [StubRule.WithCookie, insertKV_insertKV]
  have hq : (((s.WithQueryParam n m1).WithQueryParam n m2)).request.queryParams
      = insertKV s.request.queryParams n m2 := by
    simp [StubRule.WithQueryParam, insertKV_insertKV]
  refine ⟨⟨?_, hfind _⟩, ⟨?_, hfind _⟩, ?_, hfind _⟩
  · have h1 := mapFrom_headers (((s.WithHeader n m1).WithHeader n m2)).request
      (by rw [hh]; exact insertKV_length_pos _ _ _)
    rw [hh] at h1
    exact h1
  · have h1 := mapFrom_cookies (((s.WithCookie n m1).WithCookie n m2)).request
      (by rw [hc]; exact insertKV_length_pos _ _ _)
    rw [hc] at h1
    exact h1
  · have h1 := mapFrom_queryParams (((s.WithQueryParam n m1).WithQueryParam n m2)).request
      (by rw [hq]; exact insertKV_length_pos _ _ _)
    rw [hq] at h1
    exact h1

/-- Claim C6: folding any non-empty list of WithBodyPattern calls over
any rule appends the matchers, duplicates included, to the stored
body-pattern sequence, and the serialized request object maps
bodyPatterns to the array of single-entry objects in exactly that
insertion order. -/
theorem c6_body_patterns_ordered (s : StubRule) (ms : List ParamMatcher)
    (h : s.request.bodyPatterns ++ ms ≠ []) :
    (applyBodyPatterns s ms).request.bodyPatterns = s.request.bodyPatterns ++ ms ∧
    lookupKV (mapFrom (applyBodyPatterns s ms).request) "bodyPatterns"
      = some (GoVal.arr (elemsOf ((s.request.bodyPatterns ++ ms).map paramEntry))) := by
  have happ : ∀ (t : StubRule) (l : List ParamMatcher),
      (applyBodyPatterns t l).request.bodyPatterns = t.request.bodyPatterns ++ l := by
    intro t l
    induction l generalizing t with
    | nil => simp [applyBodyPatterns]
    | cons hd tl ih =>
      simp [applyBodyPatterns] at ih ⊢
      rw [ih]
      simp [StubRule.WithBodyPattern]
  refine ⟨happ s ms, ?_⟩
  have h1 := mapFrom_bodyPatterns (applyBodyPatterns s ms).request
    (by rw [happ s ms]; exact List.length_pos.mpr h)
  rw [happ s ms] at h1
  exact h1

/-- Claim C6 witness: three patterns, two of them identical, appended to
a fresh rule serialize as a 3-element array in insertion order. -/
theorem c6_body_patterns_ordered_witness :
    (applyBodyPatterns (Get (URLEqualTo "/"))
        [EqualToJson "\x7b\x7d", Contains "a", Contains "a"]).request.bodyPatterns
      = (Get (URLEqualTo "/")).request.bodyPatterns
          ++ [EqualToJson "\x7b\x7d", Contains "a", Contains "a"] ∧
    lookupKV (mapFrom (applyBodyPatterns (Get (URLEqualTo "/"))
        [EqualToJson "\x7b\x7d", Contains "a", Contains "a"]).request) "bodyPatterns"
      = some (GoVal.arr (elemsOf (((Get (URLEqualTo "/")).request.bodyPatterns
          ++ [EqualToJson "\x7b\x7d", Contains "a", Contains "a"]).map paramEntry))) :=
  c6_body_patterns_ordered (Get (URLEqualTo "/"))
    [EqualToJson "\x7b\x7d", Contains "a", Contains "a"] (by decide)

/-- Claim C7: for any rule whose url matcher carries one of the four
public strategy tags, the serialized request object maps "method" to the
rule's HTTP method and maps the strategy tag itself, as a key, to the
matcher's value. -/
theorem c7_request_method_and_url (s : StubRule)
    (h : isURLStrategy s.request.urlMatcher.Strategy) :
    lookupKV (mapFrom s.request) "method" = some (GoVal.str s.request.method) ∧
    lookupKV (mapFrom s.request) s.request.urlMatcher.Strategy
      = some (GoVal.str s.request.urlMatcher.Value) :=
  ⟨mapFrom_method s.request h, mapFrom_urlKey s.request h⟩

/-- Claim C7 witness: a PUT rule with a urlPathPattern matcher maps
"method" to PUT and "urlPathPattern" to the pattern. -/
theorem c7_request_method_and_url_witness :
    lookupKV (mapFrom (Put (URLPathMatching "/a/.*")).request) "method"
      = some (GoVal.str (Put (URLPathMatching "/a/.*")).request.method) ∧
    lookupKV (mapFrom (Put (URLPathMatching "/a/.*")).request)
      (Put (URLPathMatching "/a/.*")).request.urlMatcher.Strategy
      = some (GoVal.str (Put (URLPathMatching "/a/.*")).request.urlMatcher.Value) :=
  c7_request_method_and_url _ (by decide)

/-- Claim C8: every matcher constructor stores its argument and its
strategy tag verbatim, so the Strategy and Value accessors return
exactly the tag associated with the constructor and the input string. -/
theorem c8_matcher_roundtrip (v : String) :
    (URLEqualTo v).Strategy = "url" ∧ (URLEqualTo v).Value = v ∧
    (URLPathEqualTo v).Strategy = "urlPath" ∧ (URLPathEqualTo v).Value = v ∧
    (URLPathMatching v).Strategy = "urlPathPattern" ∧ (URLPathMatching v).Value = v ∧
    (URLMatching v).Strategy = "urlPattern" ∧ (URLMatching v).Value = v ∧
    (EqualTo v).Strategy = "equalTo" ∧ (EqualTo v).Value = v ∧
    (Matching v).Strategy = "matches" ∧ (Matching v).Value = v ∧
    (Contains v).Strategy = "contains" ∧ (Contains v).Value = v ∧
    (EqualToXml v).Strategy = "equalToXml" ∧ (EqualToXml v).Value = v ∧
    (EqualToJson v).Strategy = "equalToJson" ∧ (EqualToJson v).Value = v ∧
    (MatchingXPath v).Strategy = "matchesXPath" ∧ (MatchingXPath v).Value = v ∧
    (MatchingJsonPath v).Strategy = "matchesJsonPath" ∧ (MatchingJsonPath v).Value = v ∧
    (NotMatching v).Strategy = "doesNotMatch" ∧ (NotMatching v).Value = v :=
  ⟨rfl, rfl, rfl, rfl, rfl, rfl, rfl, rfl, rfl, rfl, rfl, rfl,
   rfl, rfl, rfl, rfl, rfl, rfl, rfl, rfl, rfl, rfl, rfl, rfl⟩

/-- Claim C9: serialization reads the rule and writes nothing back:
after a MarshalJSON call every stored field (method, url matcher, the
three matcher maps, the body-pattern sequence, the three response fields,
priority and the three scenario fields) equals its value before the
call, and marshalling the rule the call returns gives the same document
as the first call. -/
theorem c9_marshal_pure (s : StubRule) :
    (s.MarshalJSONRun.2.request.method = s.request.method ∧
     s.MarshalJSONRun.2.request.urlMatcher = s.request.urlMatcher ∧
     s.MarshalJSONRun.2.request.headers = s.request.headers ∧
     s.MarshalJSONRun.2.request.cookies = s.request.cookies ∧
     s.MarshalJSONRun.2.request.queryParams = s.request.queryParams ∧
     s.MarshalJSONRun.2.request.bodyPatterns = s.request.bodyPatterns ∧
     s.MarshalJSONRun.2.response.body = s.response.body ∧
     s.MarshalJSONRun.2.response.headers = s.response.headers ∧
     s.MarshalJSONRun.2.response.status = s.response.status ∧
     s.MarshalJSONRun.2.priority = s.priority ∧
     s.MarshalJSONRun.2.scenarioName = s.scenarioName ∧
     s.MarshalJSONRun.2.requiredScenarioState = s.requiredScenarioState ∧
     s.MarshalJSONRun.2.newScenarioState = s.newScenarioState) ∧
    (s.MarshalJSONRun.2).MarshalJSON = s.MarshalJSON :=
  ⟨⟨rfl, rfl, rfl, rfl, rfl, rfl, rfl, rfl, rfl, rfl, rfl, rfl, rfl⟩, rfl⟩

/-- Claim C10: MarshalJSON never returns an error: every value the
builder can store marshals (strings, integers, string-valued matcher
objects), so for every rule the result is ok with the document. -/
theorem c10_marshal_never_fails (s : StubRule) :
    s.MarshalJSON = Except.ok (stubRuleFields s) := by
  have h : (fieldsOf (stubRuleFields s)).encodableF = true := by
    rw [encodableF_fieldsOf]
    exact allEnc_stubRuleFields s
  simp [StubRule.MarshalJSON, h]
